import Mathlib

/-!
Shallow embedding of the fastapi_fileshare core: the quota accounting on
`User` (src/app/db/models.py), the file registry records (`File` in
src/app/db/models.py), the chunked upload manager
(src/app/utils/chunked_upload.py), the upload endpoints
(src/app/api/routers/files.py) and the read and delete paths
(src/app/services/file_service.py).

Modelling conventions:
- `datetime.utcnow()` values are seconds since the epoch as `Nat`; the
  `.date()` of a datetime is its UTC day number `t / 86400`;
  `timedelta(hours=h)` is `h * 3600` seconds.
- Python integers are `Int` (sizes, counters, limits); byte strings are
  `List Nat`; the on-disk stores are total maps returning `Option`.
- Disk I/O failures (OSError) are not modelled: writes to the modelled
  stores always succeed, mirroring the happy I/O path of the source.
- Each `raise HTTPException` site becomes a constructor of `Err`; the
  blanket `except Exception: raise HTTPException(500, ...)` handlers of
  the endpoints re-wrap the in-flight error with `Err.wrapped`, and the
  handler inside `assemble_file` re-wraps with `Err.assemblyFailed`,
  preserving the cause exactly as the source embeds the caught message
  into the 500 detail string.
-/

set_option maxRecDepth 100000

namespace FileShare

/-- Seconds in a UTC day, used to model `datetime.date()` comparisons. -/
def secondsPerDay : Nat := 86400

/-- UTC day number of a timestamp: models `datetime.date()` of a UTC datetime. -/
def dateOf (t : Nat) : Nat := t / secondsPerDay

/-- Quota-relevant fields of the `User` model (src/app/db/models.py lines 23-49). -/
structure User where
  id : Nat
  storage_limit : Int
  storage_used : Int
  daily_download_limit : Int
  daily_downloads_used : Int
  last_download_reset : Nat
  deriving Repr, DecidableEq

/-- `User.check_storage_available` (models.py lines 55-57). -/
def check_storage_available (u : User) (file_size : Int) : Bool :=
  decide (u.storage_used + file_size ≤ u.storage_limit)

/-- `User.check_download_available` (models.py lines 59-66): lazily resets the
daily counter when the stored reset date is before the current date, advances
the anchor, then compares; returns the mutated user and the boolean. -/
def check_download_available (u : User) (download_size : Int) (now : Nat) :
    User × Bool :=
  let u :=
    if dateOf u.last_download_reset < dateOf now then
      { u with daily_downloads_used := 0, last_download_reset := now }
    else u
  (u, decide (u.daily_downloads_used + download_size ≤ u.daily_download_limit))

/-- `User.add_storage_usage` (models.py lines 68-70). -/
def add_storage_usage (u : User) (file_size : Int) : User :=
  { u with storage_used := u.storage_used + file_size }

/-- `User.remove_storage_usage` (models.py lines 72-74): clamped at zero by `max(0, ...)`. -/
def remove_storage_usage (u : User) (file_size : Int) : User :=
  { u with storage_used := max 0 (u.storage_used - file_size) }

/-- `User.add_download_usage` (models.py lines 76-83). -/
def add_download_usage (u : User) (download_size : Int) (now : Nat) : User :=
  let u :=
    if dateOf u.last_download_reset < dateOf now then
      { u with daily_downloads_used := 0, last_download_reset := now }
    else u
  { u with daily_downloads_used := u.daily_downloads_used + download_size }

/-- Core fields of the `File` model (models.py lines 161-182). -/
structure FileRec where
  file_id : String
  filename : String
  original_filename : String
  path : String
  file_size : Int
  upload_time : Nat
  ttl : Int
  download_count : Int
  is_active : Bool
  is_public : Bool
  owner_id : Nat
  file_hash : String
  deriving Repr, DecidableEq

/-- `File.is_expired` (models.py lines 184-189): ttl 0 never expires, otherwise
the file is expired when now is strictly past upload_time plus ttl hours. -/
def is_expired (f : FileRec) (now : Nat) : Bool :=
  if f.ttl = 0 then false
  else decide ((now : Int) > (f.upload_time : Int) + f.ttl * 3600)

/-- `settings.MAX_FILE_SIZE` (src/app/core/config.py line 22). -/
def MAX_FILE_SIZE : Int := 524288000

/-- `settings.CHUNK_SIZE` (config.py line 23). -/
def CHUNK_SIZE : Nat := 2097152

/-- Error taxonomy: one constructor per `raise HTTPException` site reachable in
the modelled paths. `wrapped` models the blanket endpoint handlers that
re-raise any caught exception as a 500 whose detail embeds the cause;
`assemblyFailed` models the same pattern inside `assemble_file`. -/
inductive Err where
  | storageLimitExceeded
  | fileTooLarge
  | fileTypeNotAllowed
  | chunkTooLarge
  | uploadNotComplete
  | uploadInfoNotFound
  | missingChunk (i : Nat)
  | sizeMismatch (expected : Int) (actual : Nat)
  | userNotFound
  | fileNotFound
  | authRequired
  | accessDenied
  | fileExpired
  | fileNotFoundOnDisk
  | assemblyFailed (cause : Err)
  | wrapped (cause : Err)
  deriving Repr, DecidableEq

deriving instance DecidableEq for Except

/-- Metadata stored by `save_upload_info` in the `{upload_id}_info.json` file
(src/app/utils/chunked_upload.py lines 45-61). -/
structure UploadInfo where
  filename : String
  total_chunks : Nat
  file_size : Int
  deriving Repr, DecidableEq

/-- The temp-chunk area of the disk: info files keyed by (user, upload id) and
chunk files keyed by (user, upload id, chunk number), as laid out by
`get_upload_info_path` and `get_chunk_path` under the per-user temp directory. -/
structure ChunkStore where
  infos : Nat → String → Option UploadInfo
  chunks : Nat → String → Nat → Option (List Nat)

/-- `ChunkedUploadManager.save_chunk` (chunked_upload.py lines 34-43): opens the
chunk path with mode wb, unconditionally overwriting any prior fragment for the
same (upload id, chunk number); never raises on resubmission. -/
def save_chunk (cs : ChunkStore) (upload_id : String) (chunk_number : Nat)
    (chunk_data : List Nat) (user_id : Nat) : ChunkStore :=
  { cs with
    chunks := fun u id k =>
      if u = user_id ∧ id = upload_id ∧ k = chunk_number then some chunk_data
      else cs.chunks u id k }

/-- `ChunkedUploadManager.save_upload_info` (chunked_upload.py lines 45-61). -/
def save_upload_info (cs : ChunkStore) (upload_id filename : String)
    (total_chunks : Nat) (file_size : Int) (user_id : Nat) : ChunkStore :=
  { cs with
    infos := fun u id =>
      if u = user_id ∧ id = upload_id then
        some { filename := filename, total_chunks := total_chunks, file_size := file_size }
      else cs.infos u id }

/-- `ChunkedUploadManager.get_upload_info` (chunked_upload.py lines 63-75). -/
def get_upload_info (cs : ChunkStore) (upload_id : String) (user_id : Nat) :
    Option UploadInfo :=
  cs.infos user_id upload_id

/-- `ChunkedUploadManager.is_upload_complete` (chunked_upload.py lines 77-95):
false when the info file is missing, otherwise true exactly when every chunk
file 0 .. total_chunks-1 exists. -/
def is_upload_complete (cs : ChunkStore) (upload_id : String) (user_id : Nat) :
    Bool :=
  match get_upload_info cs upload_id user_id with
  | none => false
  | some info =>
      (List.range info.total_chunks).all fun i =>
        (cs.chunks user_id upload_id i).isSome

/-- The assembly loop of `assemble_file` (chunked_upload.py lines 109-119):
concatenates chunks 0 .. n-1 in order, failing at the first missing index. -/
def collect_chunks (cs : ChunkStore) (upload_id : String) (user_id : Nat) :
    Nat → Except Err (List Nat)
  | 0 => .ok []
  | n + 1 =>
      match collect_chunks cs upload_id user_id n with
      | .error e => .error e
      | .ok rest =>
          match cs.chunks user_id upload_id n with
          | none => .error (.missingChunk n)
          | some data => .ok (rest ++ data)

/-- The try body of `ChunkedUploadManager.assemble_file` (chunked_upload.py
lines 99-126): reads the info file, concatenates the chunks, and fails with a
size mismatch (removing the partial output) when the assembled length differs
from the declared size; on success the assembled bytes are returned. -/
def assemble_file_body (cs : ChunkStore) (upload_id : String) (user_id : Nat) :
    Except Err (List Nat) :=
  match get_upload_info cs upload_id user_id with
  | none => .error .uploadInfoNotFound
  | some info =>
      match collect_chunks cs upload_id user_id info.total_chunks with
      | .error e => .error e
      | .ok data =>
          if (data.length : Int) ≠ info.file_size then
            .error (.sizeMismatch info.file_size data.length)
          else
            .ok data

/-- `ChunkedUploadManager.assemble_file` (chunked_upload.py lines 97-137): the
handler at lines 128-137 catches every exception from the body and re-raises a
500 whose detail embeds it, modelled by the `assemblyFailed` wrapper. -/
def assemble_file (cs : ChunkStore) (upload_id : String) (user_id : Nat) :
    Except Err (List Nat) :=
  match assemble_file_body cs upload_id user_id with
  | .ok data => .ok data
  | .error e => .error (.assemblyFailed e)

/-- `ChunkedUploadManager.cleanup_upload` (chunked_upload.py lines 139-172):
a no-op when the info file is missing; otherwise removes the chunk files
0 .. total_chunks-1, the assembled temp file and the info file. -/
def cleanup_upload (cs : ChunkStore) (upload_id : String) (user_id : Nat) :
    ChunkStore :=
  match get_upload_info cs upload_id user_id with
  | none => cs
  | some info =>
      { infos := fun u id =>
          if u = user_id ∧ id = upload_id then none else cs.infos u id,
        chunks := fun u id k =>
          if u = user_id ∧ id = upload_id ∧ k < info.total_chunks then none
          else cs.chunks u id k }

/-- Endpoint `start_chunked_upload` (src/app/api/routers/files.py lines
106-152). Checks, in source order: the optimistic storage quota check via
`check_storage_available`, the system size ceiling, and the extension allow
list (the parameter `ext_ok` stands for the string test
`os.path.splitext(filename)[1].lower() in settings.allowed_extensions_list`).
Only after all checks pass is the session info persisted. The upload id is
produced by a hash over filename, size and wall time; it is passed in as
`new_upload_id`. The surrounding `except Exception` re-raises every failure as
a 500 embedding it, modelled with `Err.wrapped`. The store is returned
unchanged on every error path. -/
def start_chunked_upload (cs : ChunkStore) (current_user : User)
    (filename : String) (file_size : Int) (total_chunks : Nat)
    (ext_ok : String → Bool) (new_upload_id : String) :
    ChunkStore × Except Err String :=
  if check_storage_available current_user file_size = false then
    (cs, .error (.wrapped .storageLimitExceeded))
  else if file_size > MAX_FILE_SIZE then
    (cs, .error (.wrapped .fileTooLarge))
  else if ext_ok filename = false then
    (cs, .error (.wrapped .fileTypeNotAllowed))
  else
    (save_upload_info cs new_upload_id filename total_chunks file_size
        current_user.id,
      .ok new_upload_id)

/-- Endpoint `upload_chunk` (files.py lines 154-189): rejects a chunk above
`CHUNK_SIZE` plus a 1024-byte overhead allowance, otherwise saves the chunk
(overwriting any prior fragment for the same number) and reports whether the
upload is now complete. No session-existence check is performed. -/
def upload_chunk (cs : ChunkStore) (upload_id : String) (chunk_number : Nat)
    (chunk_data : List Nat) (user_id : Nat) :
    ChunkStore × Except Err (Nat × Bool) :=
  if chunk_data.length > CHUNK_SIZE + 1024 then
    (cs, .error (.wrapped .chunkTooLarge))
  else
    let cs2 := save_chunk cs upload_id chunk_number chunk_data user_id
    (cs2, .ok (chunk_number, is_upload_complete cs2 upload_id user_id))

/-- Result of `complete_chunked_upload`: the temp-chunk store, the user table,
the file registry, the final-file disk keyed by path, and the typed outcome. -/
structure CompleteResult where
  store : ChunkStore
  users : List User
  files : List FileRec
  disk : String → Option (List Nat)
  result : Except Err FileRec

/-- Endpoint `complete_chunked_upload` (files.py lines 191-304). Source order:
completeness check, info lookup, assembly (`assemble_file`), move of the
assembled bytes to the final per-user path, hash computation (`sha256` is the
injected digest function from hashlib), creation of the `FileModel` row with
`file_size` taken from the declared session size, fetch of the owner row and
unconditional `add_storage_usage`, then one commit. No quota check of any kind
is performed here. Every failure is caught by the blanket handler (modelled
with `Err.wrapped`), which removes the assembled temp file, removes the final
file when already created, and calls `cleanup_upload`; on success the
scheduled background task also runs `cleanup_upload`, so the session is
released either way. The fresh uuid4 file id is passed in as `new_file_id`
and the row timestamp as `now`. -/
def complete_chunked_upload (cs : ChunkStore) (users : List User)
    (files : List FileRec) (disk : String → Option (List Nat))
    (upload_id : String) (ttl : Int) (is_public : Bool) (current_user : User)
    (new_file_id : String) (now : Nat) (sha256 : List Nat → String)
    (user_dir : String) : CompleteResult :=
  if is_upload_complete cs upload_id current_user.id = false then
    { store := cleanup_upload cs upload_id current_user.id, users := users,
      files := files, disk := disk,
      result := .error (.wrapped .uploadNotComplete) }
  else
    match get_upload_info cs upload_id current_user.id with
    | none =>
        { store := cleanup_upload cs upload_id current_user.id, users := users,
          files := files, disk := disk,
          result := .error (.wrapped .uploadInfoNotFound) }
    | some info =>
        match assemble_file cs upload_id current_user.id with
        | .error e =>
            { store := cleanup_upload cs upload_id current_user.id,
              users := users, files := files, disk := disk,
              result := .error (.wrapped e) }
        | .ok data =>
            let filename := new_file_id ++ "_" ++ info.filename
            let final_path := user_dir ++ "/" ++ filename
            match users.find? fun u => u.id == current_user.id with
            | none =>
                { store := cleanup_upload cs upload_id current_user.id,
                  users := users, files := files,
                  disk := fun p => if p = final_path then none else disk p,
                  result := .error (.wrapped .userNotFound) }
            | some _ =>
                let db_file : FileRec :=
                  { file_id := new_file_id, filename := filename,
                    original_filename := info.filename, path := final_path,
                    file_size := info.file_size, upload_time := now,
                    ttl := ttl, download_count := 0, is_active := true,
                    is_public := is_public, owner_id := current_user.id,
                    file_hash := sha256 data }
                { store := cleanup_upload cs upload_id current_user.id,
                  users := users.map fun u =>
                    if u.id == current_user.id then
                      add_storage_usage u info.file_size
                    else u,
                  files := files ++ [db_file],
                  disk := fun p => if p = final_path then some data else disk p,
                  result := .ok db_file }

/-- `file_service.get_file_info_cached` (src/app/services/file_service.py
lines 299-326) on the cache-miss path; the in-memory TTL cache is modelled as
pass-through since its hit path performs the same activity and visibility
checks on the cached row. Anonymous requesters are `none`. -/
def get_file_info_cached (files : List FileRec) (file_id : String)
    (user_id : Option Nat) : Except Err FileRec :=
  match files.find? fun f => f.file_id == file_id && f.is_active with
  | none => .error .fileNotFound
  | some f =>
      if f.is_public = false ∧ (user_id = none ∨ user_id ≠ some f.owner_id) then
        .error .accessDenied
      else
        .ok f

/-- Marks the rows matching a file id inactive, modelling the ORM attribute
assignment plus commit on the row fetched by file id. -/
def markInactive (files : List FileRec) (file_id : String) : List FileRec :=
  files.map fun f => if f.file_id == file_id then { f with is_active := false } else f

/-- Increments download_count on the rows matching a file id, modelling the
bulk `update({download_count: download_count + 1})` by file id. -/
def incDownloadCount (files : List FileRec) (file_id : String) : List FileRec :=
  files.map fun f =>
    if f.file_id == file_id then { f with download_count := f.download_count + 1 }
    else f

/-- `file_service.get_file_path_optimized` (file_service.py lines 328-357):
after the lookup and access checks, a file with positive ttl whose expiry time
has passed is auto-cleaned by persisting is_active := false and the read fails
with 410 Gone; otherwise the on-disk presence is checked and the download
count is incremented before the path is returned. The registry state is
returned alongside the outcome because the expiry branch commits its mutation
before raising. -/
def get_file_path_optimized (files : List FileRec)
    (disk : String → Option (List Nat)) (file_id : String)
    (user_id : Option Nat) (now : Nat) :
    List FileRec × Except Err (String × FileRec) :=
  match get_file_info_cached files file_id user_id with
  | .error e => (files, .error e)
  | .ok f =>
      if f.ttl > 0 ∧ (now : Int) > (f.upload_time : Int) + f.ttl * 3600 then
        (markInactive files file_id, .error .fileExpired)
      else if (disk f.path).isNone then
        (files, .error .fileNotFoundOnDisk)
      else
        (incDownloadCount files file_id,
          .ok (f.path, { f with download_count := f.download_count + 1 }))

/-- Endpoint `download_file` (files.py lines 321-352): looks the active row up,
enforces authentication and ownership for private files, then serves through
`get_file_path_optimized`. The user table is threaded through untouched: no
download-quota method is invoked anywhere on this path. -/
def download_file (users : List User) (files : List FileRec)
    (disk : String → Option (List Nat)) (file_id : String)
    (current_user : Option Nat) (now : Nat) :
    List User × List FileRec × Except Err (String × FileRec) :=
  match files.find? fun f => f.file_id == file_id && f.is_active with
  | none => (users, files, .error .fileNotFound)
  | some file_info =>
      if file_info.is_public = false then
        match current_user with
        | none => (users, files, .error .authRequired)
        | some uid =>
            if file_info.owner_id ≠ uid then (users, files, .error .accessDenied)
            else
              let r := get_file_path_optimized files disk file_id (some uid) now
              (users, r.1, r.2)
      else
        let r := get_file_path_optimized files disk file_id current_user now
        (users, r.1, r.2)

/-- `file_service.delete_file_optimized` (file_service.py lines 399-436), the
function behind the `delete_file` endpoints: finds the active row owned by the
caller, soft-deletes it (is_active := false) and commits. The physical file
removal is a fire-and-forget background task (the disk is untouched at return)
and the user table is not consulted: no storage-usage method is invoked. -/
def delete_file_optimized (users : List User) (files : List FileRec)
    (file_id : String) (user_id : Nat) :
    List User × List FileRec × Except Err String :=
  match files.find? fun f =>
      f.file_id == file_id && f.owner_id == user_id && f.is_active with
  | none => (users, files, .error .fileNotFound)
  | some f =>
      (users,
        files.map fun g =>
          if g.file_id == file_id && g.owner_id == user_id && g.is_active then
            { g with is_active := false }
          else g,
        .ok f.original_filename)

/-! ## Shared fixtures and helper operations -/

/-- An empty temp-chunk area. -/
def emptyStore : ChunkStore :=
  { infos := fun _ _ => none, chunks := fun _ _ _ => none }

/-- An empty final-file disk. -/
def noDisk : String → Option (List Nat) := fun _ => none

/-- A sequence of `save_chunk` submissions (user, upload id, number, bytes),
applied in order. -/
def applySaves (cs : ChunkStore)
    (subs : List (Nat × String × Nat × List Nat)) : ChunkStore :=
  subs.foldl (fun s sub => save_chunk s sub.2.1 sub.2.2.1 sub.2.2.2 sub.1) cs

theorem save_chunk_infos (cs : ChunkStore) (upload_id : String) (n : Nat)
    (b : List Nat) (u : Nat) :
    (save_chunk cs upload_id n b u).infos = cs.infos := rfl

theorem applySaves_infos (cs : ChunkStore)
    (subs : List (Nat × String × Nat × List Nat)) :
    (applySaves cs subs).infos = cs.infos := by
  induction subs generalizing cs with
  | nil => rfl
  | cons sub rest ih => simpa [applySaves, List.foldl_cons] using ih _

/-! ## Claim C5: resubmitting a chunk sequence overwrites, with no error -/

/-- C5: submitting a chunk for a sequence number that was already submitted
raises no error and overwrites the prior fragment: a double submission of the
same sequence equals a single submission of the last payload, so the later
payload is the one present at assembly, and the chunk endpoint accepts the
resubmission whenever the chunk respects the size ceiling. -/
theorem save_chunk_resubmission_overwrites (cs : ChunkStore)
    (upload_id : String) (n : Nat) (b1 b2 : List Nat) (u : Nat) :
    save_chunk (save_chunk cs upload_id n b1 u) upload_id n b2 u
      = save_chunk cs upload_id n b2 u
    ∧ assemble_file (save_chunk (save_chunk cs upload_id n b1 u) upload_id n b2 u)
        upload_id u
      = assemble_file (save_chunk cs upload_id n b2 u) upload_id u
    ∧ (b2.length ≤ CHUNK_SIZE + 1024 →
        ((upload_chunk (save_chunk cs upload_id n b1 u) upload_id n b2 u).2).isOk
          = true) := by
  have hstore :
      save_chunk (save_chunk cs upload_id n b1 u) upload_id n b2 u
        = save_chunk cs upload_id n b2 u := by
    unfold save_chunk
    congr 1
    funext u' id' k
    by_cases h : u' = u ∧ id' = upload_id ∧ k = n
    · simp [h]
    · simp [h]
  refine ⟨hstore, by rw [hstore], ?_⟩
  intro hb
  simp only [upload_chunk, Nat.not_lt.mpr hb, if_false]
  rfl

/-- Witness for C5 at a concrete double submission. -/
theorem save_chunk_resubmission_overwrites_witness :
    save_chunk (save_chunk emptyStore "s" 0 [1, 2] 4) "s" 0 [3] 4
      = save_chunk emptyStore "s" 0 [3] 4
    ∧ assemble_file (save_chunk (save_chunk emptyStore "s" 0 [1, 2] 4) "s" 0 [3] 4)
        "s" 4
      = assemble_file (save_chunk emptyStore "s" 0 [3] 4) "s" 4
    ∧ ([3].length ≤ CHUNK_SIZE + 1024 →
        ((upload_chunk (save_chunk emptyStore "s" 0 [1, 2] 4) "s" 0 [3] 4).2).isOk
          = true) :=
  save_chunk_resubmission_overwrites emptyStore "s" 0 [1, 2] [3] 4

/-! ## Claim C9: lazy period reset inside the download reservation check -/

/-- C9: the download reservation check first detects whether now has crossed
into a new period (UTC day) relative to the anchor, and if so zeroes
daily_downloads_used and advances the anchor to now before comparing; it then
answers true exactly when the possibly-reset usage plus the requested size is
within the limit. -/
theorem check_download_available_spec (u : User) (size : Int) (now : Nat) :
    (dateOf u.last_download_reset < dateOf now →
      (check_download_available u size now).1.daily_downloads_used = 0
      ∧ (check_download_available u size now).1.last_download_reset = now
      ∧ ((check_download_available u size now).2 = true
          ↔ 0 + size ≤ u.daily_download_limit))
    ∧ (¬ dateOf u.last_download_reset < dateOf now →
      (check_download_available u size now).1 = u
      ∧ ((check_download_available u size now).2 = true
          ↔ u.daily_downloads_used + size ≤ u.daily_download_limit)) := by
  by_cases h : dateOf u.last_download_reset < dateOf now <;>
    simp [check_download_available, h]

/-- Witness for C9: a check two days past the anchor resets and advances. -/
theorem check_download_available_spec_witness :
    (check_download_available
        { id := 1, storage_limit := 0, storage_used := 0,
          daily_download_limit := 100, daily_downloads_used := 60,
          last_download_reset := 0 } 50 172800).1.daily_downloads_used = 0
    ∧ (check_download_available
        { id := 1, storage_limit := 0, storage_used := 0,
          daily_download_limit := 100, daily_downloads_used := 60,
          last_download_reset := 0 } 50 172800).1.last_download_reset = 172800
    ∧ ((check_download_available
        { id := 1, storage_limit := 0, storage_used := 0,
          daily_download_limit := 100, daily_downloads_used := 60,
          last_download_reset := 0 } 50 172800).2 = true
        ↔ 0 + 50 ≤ (100 : Int)) :=
  (check_download_available_spec
    { id := 1, storage_limit := 0, storage_used := 0,
      daily_download_limit := 100, daily_downloads_used := 60,
      last_download_reset := 0 } 50 172800).1 (by decide)

/-! ## Claim C10: storage_used never goes negative -/

/-- A storage-accounting operation on the owner counters. -/
inductive StorageOp where
  | add (size : Int)
  | remove (size : Int)
  deriving Repr, DecidableEq

/-- Dispatches a storage-accounting operation to the `User` methods. -/
def applyStorageOp (u : User) : StorageOp → User
  | .add s => add_storage_usage u s
  | .remove s => remove_storage_usage u s

/-- A sequence of storage-accounting operations applied in order. -/
def applyStorageOps (u : User) (ops : List StorageOp) : User :=
  ops.foldl applyStorageOp u

/-- C10: starting from a nonnegative storage_used, any sequence of
add_storage_usage with nonnegative sizes and remove_storage_usage with
arbitrary sizes leaves storage_used nonnegative, because removal clamps at
zero. -/
theorem storage_used_stays_nonneg (u : User) (ops : List StorageOp)
    (h0 : 0 ≤ u.storage_used)
    (hadd : ∀ s, StorageOp.add s ∈ ops → 0 ≤ s) :
    0 ≤ (applyStorageOps u ops).storage_used := by
  induction ops generalizing u with
  | nil => simpa [applyStorageOps] using h0
  | cons op rest ih =>
      have h1 : 0 ≤ (applyStorageOp u op).storage_used := by
        cases op with
        | add s =>
            have hs := hadd s (by simp)
            simp only [applyStorageOp, add_storage_usage]
            omega
        | remove s =>
            simp only [applyStorageOp, remove_storage_usage]
            exact le_max_left 0 _
      have := ih (applyStorageOp u op) h1
        (fun s hs => hadd s (List.mem_cons_of_mem _ hs))
      simpa [applyStorageOps, List.foldl_cons] using this

/-- Witness for C10 on a concrete sequence that over-removes. -/
theorem storage_used_stays_nonneg_witness :
    0 ≤ (applyStorageOps
      { id := 1, storage_limit := 1000, storage_used := 5,
        daily_download_limit := 0, daily_downloads_used := 0,
        last_download_reset := 0 }
      [.add 3, .remove 10, .remove 4, .add 2]).storage_used :=
  storage_used_stays_nonneg _ _ (by decide)
    (by
      intro s hs
      simp only [List.mem_cons, List.not_mem_nil, or_false] at hs
      rcases hs with h | h | h | h <;> first
        | (injection h with h; omega)
        | exact absurd h (by simp))

/-! ## Claim C6: the optimistic quota check blocks StartSession up front -/

/-- C6: when the owners storage_used plus the declared size exceeds
storage_limit, StartSession fails with the storage-quota error before any
bytes move: the store is returned unchanged, so no session info exists, and
for any id without session info no sequence of chunk submissions can ever make
the upload complete. -/
theorem start_quota_check_blocks (cs : ChunkStore) (u : User)
    (filename : String) (file_size : Int) (total_chunks : Nat)
    (ext_ok : String → Bool) (new_upload_id : String)
    (hq : u.storage_limit < u.storage_used + file_size) :
    start_chunked_upload cs u filename file_size total_chunks ext_ok
        new_upload_id
      = (cs, .error (.wrapped .storageLimitExceeded))
    ∧ ∀ sid, cs.infos u.id sid = none →
        ∀ subs, is_upload_complete (applySaves cs subs) sid u.id = false := by
  have hc : check_storage_available u file_size = false := by
    simp only [check_storage_available, decide_eq_false_iff_not, not_le]
    omega
  refine ⟨by simp [start_chunked_upload, hc], ?_⟩
  intro sid hnone subs
  simp [is_upload_complete, get_upload_info, applySaves_infos, hnone]

/-- Owner of the C6 witness scenario: limit 1000, used 900. -/
def c6user : User :=
  { id := 3, storage_limit := 1000, storage_used := 900,
    daily_download_limit := 0, daily_downloads_used := 0,
    last_download_reset := 0 }

/-- Witness for C6 at the spec scenario (900 + 150 > 1000): the start fails
with the quota error and a later chunk submission cannot complete the never
created session. -/
theorem start_quota_check_blocks_witness :
    start_chunked_upload emptyStore c6user "a.txt" 150 3 (fun _ => true) "up1"
      = (emptyStore, .error (.wrapped .storageLimitExceeded))
    ∧ is_upload_complete (applySaves emptyStore [(3, "up1", 0, [1, 2])])
        "up1" 3 = false :=
  ⟨(start_quota_check_blocks emptyStore c6user "a.txt" 150 3 (fun _ => true)
      "up1" (by decide)).1,
    (start_quota_check_blocks emptyStore c6user "a.txt" 150 3 (fun _ => true)
      "up1" (by decide)).2 "up1" rfl [(3, "up1", 0, [1, 2])]⟩

/-! ## Claim C7: TTL expiry on the read path -/

/-- C7: for a public active file on disk, a read strictly after upload_time
plus ttl hours fails with 410 Gone when ttl is positive, a read at or before
that instant is served, and a file with ttl zero is always served. -/
theorem ttl_read_allow_and_gone (users : List User) (files : List FileRec)
    (disk : String → Option (List Nat)) (fid : String) (cu : Option Nat)
    (now : Nat) (f : FileRec)
    (hfind : files.find? (fun g => g.file_id == fid && g.is_active) = some f)
    (hpub : f.is_public = true)
    (hdisk : (disk f.path).isSome = true) :
    (0 < f.ttl → (now : Int) ≤ (f.upload_time : Int) + f.ttl * 3600 →
        (download_file users files disk fid cu now).2.2
          = .ok (f.path, { f with download_count := f.download_count + 1 }))
    ∧ (0 < f.ttl → (f.upload_time : Int) + f.ttl * 3600 < (now : Int) →
        (download_file users files disk fid cu now).2.2 = .error .fileExpired)
    ∧ (f.ttl = 0 →
        (download_file users files disk fid cu now).2.2
          = .ok (f.path, { f with download_count := f.download_count + 1 })) := by
  obtain ⟨v, hv⟩ := Option.isSome_iff_exists.mp hdisk
  have hserve :
      ∀ _ : ¬ (f.ttl > 0 ∧ (f.upload_time : Int) + f.ttl * 3600 < (now : Int)),
        (download_file users files disk fid cu now).2.2
          = .ok (f.path, { f with download_count := f.download_count + 1 }) := by
    intro hc
    simp [download_file, hfind, hpub, get_file_path_optimized,
      get_file_info_cached, hc, hv]
  refine ⟨?_, ?_, ?_⟩
  · intro _ hle
    exact hserve fun h => absurd h.2 (not_lt.mpr hle)
  · intro ht hgt
    simp [download_file, hfind, hpub, get_file_path_optimized,
      get_file_info_cached, ht, hgt]
  · intro h0
    exact hserve fun h => by rw [h0] at h; exact absurd h.1 (lt_irrefl 0)

/-- File of the C7 witness scenario: ttl two hours, uploaded at time zero. -/
def c7file : FileRec :=
  { file_id := "f7", filename := "x", original_filename := "x", path := "p7",
    file_size := 1, upload_time := 0, ttl := 2, download_count := 0,
    is_active := true, is_public := true, owner_id := 1, file_hash := "" }

/-- Disk of the C7 witness scenario. -/
def c7disk : String → Option (List Nat) :=
  fun p => if p = "p7" then some [0] else none

/-- Witness for C7: with ttl two hours and creation at time zero, the read at
one hour is allowed and the read at three hours fails Gone. -/
theorem ttl_read_allow_and_gone_witness :
    (download_file [] [c7file] c7disk "f7" (some 2) 3600).2.2
      = .ok ("p7", { c7file with download_count := 1 })
    ∧ (download_file [] [c7file] c7disk "f7" (some 2) 10800).2.2
      = .error .fileExpired :=
  ⟨(ttl_read_allow_and_gone [] [c7file] c7disk "f7" (some 2) 3600 c7file
      (by decide) rfl rfl).1 (by decide) (by decide),
    (ttl_read_allow_and_gone [] [c7file] c7disk "f7" (some 2) 10800 c7file
      (by decide) rfl rfl).2.1 (by decide) (by decide)⟩

/-! ## Claim C2: delete marks inactive and hides the file, but the user-facing
delete path performs no storage compensation -/

/-- Owner of the C2 scenario, with 500 bytes of recorded usage. -/
def c2user : User :=
  { id := 7, storage_limit := 1000, storage_used := 500,
    daily_download_limit := 100, daily_downloads_used := 0,
    last_download_reset := 0 }

/-- A 200-byte active file owned by the C2 owner. -/
def c2file : FileRec :=
  { file_id := "f2", filename := "y_a.txt", original_filename := "a.txt",
    path := "p2", file_size := 200, upload_time := 0, ttl := 0,
    download_count := 0, is_active := true, is_public := false, owner_id := 7,
    file_hash := "" }

/-- C2 counterexample: deleting the 200-byte file succeeds but leaves the
owners storage_used at 500 instead of decreasing it by the byte size, so the
claimed compensating negative storage commit does not happen on this path. -/
theorem delete_no_storage_decrement :
    (delete_file_optimized [c2user] [c2file] "f2" 7).2.2 = .ok "a.txt"
    ∧ (delete_file_optimized [c2user] [c2file] "f2" 7).1.map User.storage_used
        = [500]
    ∧ c2file.file_size = 200
    ∧ (500 : Int) ≠ 500 - 200 := by decide

/-- C2 as amended: after a successful Delete the file row is soft-deleted, a
subsequent read of the same id fails NotFound, and the user table is returned
untouched: storage_used does not change, because `delete_file_optimized`
never invokes `remove_storage_usage`. -/
theorem delete_marks_inactive_and_read_notfound
    (users : List User) (files : List FileRec)
    (disk : String → Option (List Nat)) (fid : String) (uid : Nat) (now : Nat)
    (f : FileRec)
    (hfind : files.find?
        (fun g => g.file_id == fid && g.owner_id == uid && g.is_active)
        = some f)
    (howner : ∀ g ∈ files, g.file_id = fid → g.owner_id = uid) :
    (delete_file_optimized users files fid uid).2.2 = .ok f.original_filename
    ∧ { f with is_active := false }
        ∈ (delete_file_optimized users files fid uid).2.1
    ∧ (download_file users (delete_file_optimized users files fid uid).2.1
        disk fid (some uid) now).2.2 = .error .fileNotFound
    ∧ (delete_file_optimized users files fid uid).1 = users := by
  have hpred := List.find?_some hfind
  have hmem := List.mem_of_find?_eq_some hfind
  simp only [Bool.and_eq_true, beq_iff_eq] at hpred
  obtain ⟨⟨hfid, hown⟩, hact⟩ := hpred
  have hdel : delete_file_optimized users files fid uid
      = (users,
          files.map fun g =>
            if g.file_id == fid && g.owner_id == uid && g.is_active then
              { g with is_active := false }
            else g,
          .ok f.original_filename) := by
    simp [delete_file_optimized, hfind]
  have hfmem : { f with is_active := false }
      ∈ files.map fun g =>
          if g.file_id == fid && g.owner_id == uid && g.is_active then
            { g with is_active := false }
          else g := by
    refine List.mem_map.mpr ⟨f, hmem, ?_⟩
    simp [hfid, hown, hact]
  have hnone : (files.map fun g =>
        if g.file_id == fid && g.owner_id == uid && g.is_active then
          { g with is_active := false }
        else g).find? (fun g => g.file_id == fid && g.is_active) = none := by
    rw [List.find?_eq_none]
    intro g2 hg2
    obtain ⟨g, hg, rfl⟩ := List.mem_map.mp hg2
    by_cases hgf : g.file_id = fid
    · have hgo : g.owner_id = uid := howner g hg hgf
      by_cases hga : g.is_active = true
      · simp [hgf, hgo, hga]
      · rw [Bool.not_eq_true] at hga
        simp [hgf, hgo, hga]
    · simp [hgf]
  refine ⟨by rw [hdel], by rw [hdel]; exact hfmem, ?_, by rw [hdel]⟩
  rw [hdel]
  simp only [download_file]
  rw [hnone]

/-- Witness for the amended C2 at the concrete fixture. -/
theorem delete_marks_inactive_and_read_notfound_witness :
    (delete_file_optimized [c2user] [c2file] "f2" 7).2.2
      = .ok c2file.original_filename
    ∧ { c2file with is_active := false }
        ∈ (delete_file_optimized [c2user] [c2file] "f2" 7).2.1
    ∧ (download_file [c2user] (delete_file_optimized [c2user] [c2file] "f2" 7).2.1
        noDisk "f2" (some 7) 0).2.2 = .error .fileNotFound
    ∧ (delete_file_optimized [c2user] [c2file] "f2" 7).1 = [c2user] :=
  delete_marks_inactive_and_read_notfound [c2user] [c2file] noDisk "f2" 7 0
    c2file (by decide) (by decide)

/-! ## Claim C3: the download path never consults the download quota -/

/-- Requester of the C3 scenario, with the daily download quota exhausted. -/
def c3requester : User :=
  { id := 2, storage_limit := 0, storage_used := 0,
    daily_download_limit := 100, daily_downloads_used := 100,
    last_download_reset := 0 }

/-- A public 50-byte file owned by someone else. -/
def c3file : FileRec :=
  { file_id := "f3", filename := "z", original_filename := "z", path := "p3",
    file_size := 50, upload_time := 0, ttl := 0, download_count := 0,
    is_active := true, is_public := true, owner_id := 1, file_hash := "" }

/-- Disk of the C3 scenario. -/
def c3disk : String → Option (List Nat) :=
  fun p => if p = "p3" then some [0] else none

/-- C3 counterexample: the reservation for the requester would fail (quota
exhausted), yet the non-owner read of the public file is allowed and the user
table is unchanged, so the read neither gates on nor consumes download quota. -/
theorem download_ignores_download_quota :
    (check_download_available c3requester c3file.file_size 0).2 = false
    ∧ (download_file [c3requester] [c3file] c3disk "f3" (some 2) 0).2.2
        = .ok ("p3", { c3file with download_count := 1 })
    ∧ (download_file [c3requester] [c3file] c3disk "f3" (some 2) 0).1
        = [c3requester] := by
  refine ⟨by decide, by decide, by decide⟩

/-- C3 as amended: reads never consult or consume the download quota. A read
of a public, active, unexpired file present on disk is allowed for any
requester, the user table is returned untouched, and the outcome is
independent of the user table altogether: no reservation is attempted and no
counter moves, for owners and non-owners alike. -/
theorem download_independent_of_quota (users users2 : List User)
    (files : List FileRec) (disk : String → Option (List Nat)) (fid : String)
    (cu : Option Nat) (now : Nat) (f : FileRec)
    (hfind : files.find? (fun g => g.file_id == fid && g.is_active) = some f)
    (hpub : f.is_public = true)
    (hnexp : ¬ (f.ttl > 0 ∧ (f.upload_time : Int) + f.ttl * 3600 < (now : Int)))
    (hdisk : (disk f.path).isSome = true) :
    (download_file users files disk fid cu now).2.2
      = .ok (f.path, { f with download_count := f.download_count + 1 })
    ∧ (download_file users files disk fid cu now).1 = users
    ∧ (download_file users files disk fid cu now).2
      = (download_file users2 files disk fid cu now).2 := by
  obtain ⟨v, hv⟩ := Option.isSome_iff_exists.mp hdisk
  refine ⟨?_, ?_, ?_⟩
  · simp [download_file, hfind, hpub, get_file_path_optimized,
      get_file_info_cached, hnexp, hv]
  · simp [download_file, hfind, hpub]
  · simp [download_file, hfind, hpub]

/-- Witness for the amended C3 at the concrete fixture. -/
theorem download_independent_of_quota_witness :
    (download_file [c3requester] [c3file] c3disk "f3" (some 2) 0).2.2
      = .ok (c3file.path, { c3file with download_count := c3file.download_count + 1 })
    ∧ (download_file [c3requester] [c3file] c3disk "f3" (some 2) 0).1
        = [c3requester]
    ∧ (download_file [c3requester] [c3file] c3disk "f3" (some 2) 0).2
        = (download_file [] [c3file] c3disk "f3" (some 2) 0).2 :=
  download_independent_of_quota [c3requester] [] [c3file] c3disk "f3" (some 2)
    0 c3file (by decide) rfl (by decide) rfl

/-! ## Claim C8: expiry is computed at read time, but the expired read
persists the inactive flag -/

/-- A public file with ttl one hour uploaded at time zero. -/
def c8file : FileRec :=
  { file_id := "f8", filename := "w", original_filename := "w", path := "p8",
    file_size := 1, upload_time := 0, ttl := 1, download_count := 0,
    is_active := true, is_public := true, owner_id := 1, file_hash := "" }

/-- C8 counterexample: a read of the expired file does not leave the stored
record unchanged: it persists is_active := false (the auto-cleanup commit at
file_service.py lines 336-339) before failing Gone. -/
theorem expiry_read_mutates_record :
    c8file.is_active = true
    ∧ (get_file_path_optimized [c8file] noDisk "f8" none 7200).2
        = .error .fileExpired
    ∧ (get_file_path_optimized [c8file] noDisk "f8" none 7200).1
        = [{ c8file with is_active := false }] := by decide

/-- C8 as amended: the expired state is derived at read time from upload_time
plus ttl hours versus now and there is no stored expired flag, but the read
that finds the file expired persists is_active := false before failing Gone;
a read that does not hit the expiry branch changes the stored rows only by the
download-count increment (and not at all when the bytes are missing on disk). -/
theorem expiry_lazy_with_autocleanup (files : List FileRec)
    (disk : String → Option (List Nat)) (fid : String) (uid : Option Nat)
    (now : Nat) (f : FileRec)
    (hok : get_file_info_cached files fid uid = .ok f) :
    (f.ttl > 0 ∧ (f.upload_time : Int) + f.ttl * 3600 < (now : Int) →
        (get_file_path_optimized files disk fid uid now).1
          = markInactive files fid
        ∧ (get_file_path_optimized files disk fid uid now).2
          = .error .fileExpired)
    ∧ (¬ (f.ttl > 0 ∧ (f.upload_time : Int) + f.ttl * 3600 < (now : Int)) →
        disk f.path = none →
        (get_file_path_optimized files disk fid uid now).1 = files)
    ∧ (¬ (f.ttl > 0 ∧ (f.upload_time : Int) + f.ttl * 3600 < (now : Int)) →
        ∀ v, disk f.path = some v →
        (get_file_path_optimized files disk fid uid now).1
          = incDownloadCount files fid) := by
  refine ⟨fun hc => ⟨?_, ?_⟩, fun hc hd => ?_, fun hc v hd => ?_⟩ <;>
    simp [get_file_path_optimized, hok, *]

/-- Witness for the amended C8: the expired read persists the inactive flag
and fails Gone; an unexpired read with the bytes missing changes nothing. -/
theorem expiry_lazy_with_autocleanup_witness :
    ((get_file_path_optimized [c8file] noDisk "f8" none 7200).1
        = markInactive [c8file] "f8"
      ∧ (get_file_path_optimized [c8file] noDisk "f8" none 7200).2
        = .error .fileExpired)
    ∧ (get_file_path_optimized [c8file] noDisk "f8" none 0).1 = [c8file] :=
  ⟨(expiry_lazy_with_autocleanup [c8file] noDisk "f8" none 7200 c8file
      (by decide)).1 (by decide),
    (expiry_lazy_with_autocleanup [c8file] noDisk "f8" none 0 c8file
      (by decide)).2.1 (by decide) rfl⟩

/-! ## Claims C1 and C4: completion, assembly and the missing authoritative
quota recheck -/

/-- Chunk fragment lengths of a session, in assembly order. -/
def chunkLengths (cs : ChunkStore) (upload_id : String) (user_id : Nat)
    (n : Nat) : List Nat :=
  (List.range n).map fun i => ((cs.chunks user_id upload_id i).getD []).length

theorem collect_chunks_length (cs : ChunkStore) (upload_id : String)
    (user_id : Nat) :
    ∀ n data, collect_chunks cs upload_id user_id n = .ok data →
      data.length = (chunkLengths cs upload_id user_id n).sum := by
  intro n
  induction n with
  | zero =>
      intro data h
      injection (show Except.ok ([] : List Nat) = Except.ok data from h) with hd
      simp [← hd, chunkLengths]
  | succ n ih =>
      intro data h
      simp only [collect_chunks] at h
      cases hr : collect_chunks cs upload_id user_id n with
      | error e => rw [hr] at h; cases h
      | ok rest =>
          rw [hr] at h
          cases hc : cs.chunks user_id upload_id n with
          | none => rw [hc] at h; cases h
          | some d =>
              rw [hc] at h
              injection h with h
              have hsucc : chunkLengths cs upload_id user_id (n + 1)
                  = chunkLengths cs upload_id user_id n ++ [d.length] := by
                simp [chunkLengths, List.range_succ, hc]
              rw [hsucc, List.sum_append, ← h, List.length_append,
                ih rest hr]
              simp

/-- Digest stand-in for scenarios where the hash value is irrelevant. -/
def zeroHash : List Nat → String := fun _ => ""

/-- Temp-chunk area of the C1 scenario: a one-chunk session declared at 150
bytes whose single 150-byte fragment is present. -/
def c1store : ChunkStore :=
  { infos := fun u id =>
      if u = 7 ∧ id = "s1" then
        some { filename := "a.bin", total_chunks := 1, file_size := 150 }
      else none,
    chunks := fun u id k =>
      if u = 7 ∧ id = "s1" ∧ k = 0 then some (List.replicate 150 0)
      else none }

/-- Owner of the C1 scenario: limit 1000 with 900 already used, so the
assembled 150 bytes exceed the remaining headroom. -/
def c1user : User :=
  { id := 7, storage_limit := 1000, storage_used := 900,
    daily_download_limit := 0, daily_downloads_used := 0,
    last_download_reset := 0 }

/-- C1 counterexample: at completion time the owners storage_used plus the
assembled size exceeds storage_limit (900 + 150 > 1000), yet Complete
succeeds, persists the FileObject and commits the storage delta, driving
storage_used to 1050: no authoritative quota recheck exists on this path. -/
theorem complete_commits_over_limit :
    (1000 : Int) < 900 + 150
    ∧ (complete_chunked_upload c1store [c1user] [] noDisk "s1" 0 false c1user
        "fid1" 0 zeroHash "users/7").result.isOk = true
    ∧ (complete_chunked_upload c1store [c1user] [] noDisk "s1" 0 false c1user
        "fid1" 0 zeroHash "users/7").files.length = 1
    ∧ (complete_chunked_upload c1store [c1user] [] noDisk "s1" 0 false c1user
        "fid1" 0 zeroHash "users/7").users.map User.storage_used = [1050] := by
  refine ⟨by decide, by decide, by decide, by decide⟩

/-- C1 as amended: Complete re-runs no quota check. Whenever the session is
complete, the assembled length matches the declared size and the owner row
exists, Complete succeeds, appends the FileObject and unconditionally adds
the declared size to the owners storage_used, even when storage_used plus the
size already exceeds storage_limit at that point. -/
theorem complete_commits_without_recheck (cs : ChunkStore) (users : List User)
    (files : List FileRec) (disk : String → Option (List Nat))
    (upload_id : String) (ttl : Int) (pub : Bool) (cu : User) (nid : String)
    (now : Nat) (sha256 : List Nat → String) (dir : String)
    (info : UploadInfo) (data : List Nat) (u0 : User)
    (hcomp : is_upload_complete cs upload_id cu.id = true)
    (hinfo : get_upload_info cs upload_id cu.id = some info)
    (hcollect : collect_chunks cs upload_id cu.id info.total_chunks = .ok data)
    (hlen : (data.length : Int) = info.file_size)
    (hfind : users.find? (fun x => x.id == cu.id) = some u0)
    (hover : u0.storage_limit < u0.storage_used + info.file_size) :
    (complete_chunked_upload cs users files disk upload_id ttl pub cu nid now
        sha256 dir).result.isOk = true
    ∧ (complete_chunked_upload cs users files disk upload_id ttl pub cu nid now
        sha256 dir).users
      = (users.map fun x =>
          if x.id == cu.id then add_storage_usage x info.file_size else x)
    ∧ (complete_chunked_upload cs users files disk upload_id ttl pub cu nid now
        sha256 dir).files.length = files.length + 1 := by
  have hasm : assemble_file cs upload_id cu.id = .ok data := by
    simp [assemble_file, assemble_file_body, hinfo, hcollect, hlen]
  refine ⟨?_, ?_, ?_⟩ <;>
    simp [complete_chunked_upload, hcomp, hinfo, hasm, hfind, Except.isOk,
      Except.toBool]

/-- Witness for the amended C1 at the concrete over-quota fixture. -/
theorem complete_commits_without_recheck_witness :
    (complete_chunked_upload c1store [c1user] [] noDisk "s1" 0 false c1user
        "fid1" 0 zeroHash "users/7").result.isOk = true
    ∧ (complete_chunked_upload c1store [c1user] [] noDisk "s1" 0 false c1user
        "fid1" 0 zeroHash "users/7").users
      = ([c1user].map fun x =>
          if x.id == c1user.id then add_storage_usage x 150 else x)
    ∧ (complete_chunked_upload c1store [c1user] [] noDisk "s1" 0 false c1user
        "fid1" 0 zeroHash "users/7").files.length
      = ([] : List FileRec).length + 1 :=
  complete_commits_without_recheck c1store [c1user] [] noDisk "s1" 0 false
    c1user "fid1" 0 zeroHash "users/7"
    { filename := "a.bin", total_chunks := 1, file_size := 150 }
    (List.replicate 150 0) c1user (by decide) (by decide) (by decide)
    (by decide) (by decide) (by decide)

/-- C4: when every chunk of a session is present, Complete fails with the
size-mismatch error (producing no registry row and writing no final bytes)
exactly when the concatenated length differs from the declared size; when the
lengths agree, completion succeeds with a FileObject whose byte size equals
the sum of the chunk lengths and whose bytes are the concatenation. -/
theorem assembly_size_check (cs : ChunkStore) (users : List User)
    (files : List FileRec) (disk : String → Option (List Nat))
    (upload_id : String) (ttl : Int) (pub : Bool) (cu : User) (nid : String)
    (now : Nat) (sha256 : List Nat → String) (dir : String)
    (info : UploadInfo) (data : List Nat)
    (hcomp : is_upload_complete cs upload_id cu.id = true)
    (hinfo : get_upload_info cs upload_id cu.id = some info)
    (hcollect : collect_chunks cs upload_id cu.id info.total_chunks
      = .ok data) :
    ((data.length : Int) ≠ info.file_size →
        (complete_chunked_upload cs users files disk upload_id ttl pub cu nid
            now sha256 dir).result
          = .error (.wrapped (.assemblyFailed
              (.sizeMismatch info.file_size data.length)))
        ∧ (complete_chunked_upload cs users files disk upload_id ttl pub cu nid
            now sha256 dir).files = files
        ∧ (complete_chunked_upload cs users files disk upload_id ttl pub cu nid
            now sha256 dir).disk = disk)
    ∧ ((data.length : Int) = info.file_size →
        ∀ u0, users.find? (fun x => x.id == cu.id) = some u0 →
        ∃ fnew,
          (complete_chunked_upload cs users files disk upload_id ttl pub cu nid
              now sha256 dir).result = .ok fnew
          ∧ fnew.file_size
            = ((chunkLengths cs upload_id cu.id info.total_chunks).sum : Int)
          ∧ (complete_chunked_upload cs users files disk upload_id ttl pub cu
              nid now sha256 dir).disk fnew.path = some data) := by
  constructor
  · intro hne
    have hasm : assemble_file cs upload_id cu.id
        = .error (.assemblyFailed (.sizeMismatch info.file_size data.length)) := by
      simp [assemble_file, assemble_file_body, hinfo, hcollect, hne]
    refine ⟨?_, ?_, ?_⟩ <;>
      simp [complete_chunked_upload, hcomp, hinfo, hasm]
  · intro heq u0 hfind
    have hasm : assemble_file cs upload_id cu.id = .ok data := by
      simp [assemble_file, assemble_file_body, hinfo, hcollect, heq]
    have hres : (complete_chunked_upload cs users files disk upload_id ttl pub
        cu nid now sha256 dir).result
        = .ok
          { file_id := nid, filename := nid ++ "_" ++ info.filename,
            original_filename := info.filename,
            path := dir ++ "/" ++ (nid ++ "_" ++ info.filename),
            file_size := info.file_size, upload_time := now, ttl := ttl,
            download_count := 0, is_active := true, is_public := pub,
            owner_id := cu.id, file_hash := sha256 data } := by
      simp [complete_chunked_upload, hcomp, hinfo, hasm, hfind]
    have hwrote : (complete_chunked_upload cs users files disk upload_id ttl
        pub cu nid now sha256 dir).disk
        (dir ++ "/" ++ (nid ++ "_" ++ info.filename)) = some data := by
      simp [complete_chunked_upload, hcomp, hinfo, hasm, hfind]
    refine ⟨_, hres, ?_, hwrote⟩
    show info.file_size = _
    rw [← heq, collect_chunks_length cs upload_id cu.id info.total_chunks data
      hcollect]

/-- Temp-chunk area of the C4 success scenario: three 50-byte chunks declared
at 150 bytes. -/
def c4store : ChunkStore :=
  { infos := fun u id =>
      if u = 5 ∧ id = "s4" then
        some { filename := "b.bin", total_chunks := 3, file_size := 150 }
      else none,
    chunks := fun u id k =>
      if u = 5 ∧ id = "s4" ∧ k < 3 then some (List.replicate 50 1)
      else none }

/-- Temp-chunk area of the C4 mismatch scenario: the same three 50-byte
chunks, but 160 bytes declared. -/
def c4storeBad : ChunkStore :=
  { infos := fun u id =>
      if u = 5 ∧ id = "s4" then
        some { filename := "b.bin", total_chunks := 3, file_size := 160 }
      else none,
    chunks := fun u id k =>
      if u = 5 ∧ id = "s4" ∧ k < 3 then some (List.replicate 50 1)
      else none }

/-- Owner of the C4 scenarios. -/
def c4user : User :=
  { id := 5, storage_limit := 1000, storage_used := 800,
    daily_download_limit := 0, daily_downloads_used := 0,
    last_download_reset := 0 }

/-- Witness for C4: with 150 assembled bytes against 160 declared the
completion fails with the size mismatch and produces nothing; against 150
declared it succeeds with byte size equal to the sum of the chunk lengths. -/
theorem assembly_size_check_witness :
    ((complete_chunked_upload c4storeBad [c4user] [] noDisk "s4" 0 false
        c4user "fid4" 0 zeroHash "d").result
      = .error (.wrapped (.assemblyFailed (.sizeMismatch 160 150)))
      ∧ (complete_chunked_upload c4storeBad [c4user] [] noDisk "s4" 0 false
          c4user "fid4" 0 zeroHash "d").files = []
      ∧ (complete_chunked_upload c4storeBad [c4user] [] noDisk "s4" 0 false
          c4user "fid4" 0 zeroHash "d").disk = noDisk)
    ∧ ∃ fnew,
        (complete_chunked_upload c4store [c4user] [] noDisk "s4" 0 false
          c4user "fid4" 0 zeroHash "d").result = .ok fnew
        ∧ fnew.file_size = ((chunkLengths c4store "s4" 5 3).sum : Int)
        ∧ (complete_chunked_upload c4store [c4user] [] noDisk "s4" 0 false
            c4user "fid4" 0 zeroHash "d").disk fnew.path
          = some (List.replicate 150 1) :=
  ⟨(assembly_size_check c4storeBad [c4user] [] noDisk "s4" 0 false c4user
      "fid4" 0 zeroHash "d"
      { filename := "b.bin", total_chunks := 3, file_size := 160 }
      (List.replicate 150 1) (by decide) (by decide) (by decide)).1
      (by decide),
    (assembly_size_check c4store [c4user] [] noDisk "s4" 0 false c4user
      "fid4" 0 zeroHash "d"
      { filename := "b.bin", total_chunks := 3, file_size := 150 }
      (List.replicate 150 1) (by decide) (by decide) (by decide)).2
      (by decide) c4user (by decide)⟩

end FileShare
